import Mathlib

/-!
Shallow embedding of `examples/runtime/src/main.rs` of yowl/wasi-gfx-runtime,
together with spec-modelled definitions for the parts of the repository that
the runtime example consumes (the winit event-loop proxy and the canvas
factory of the wasi-mini-canvas crate, which are not under the sources
examined here).

Conventions of the embedding:
- `Arc` allocations are modelled by tagging each allocated value with a
  natural-number allocation identity: `Arc::new` always produces a fresh
  allocation, `Arc::clone` returns the same value.
- Rust `async fn ... .await` on a pure computation is modelled by direct
  application; a `panic!`-able `Option::unwrap` is modelled by keeping the
  `Option`, `none` standing for the panic.
- Where the src code forces a type (for example `spawn` returning `T` and
  `create_canvas` returning `MiniCanvas`, with no error variant), the
  embedding keeps that type; spec-side definitions written from the spec
  words are clearly marked and used only for comparison.
-/

namespace WasiGfxRuntime

/-! ## External wgpu types as used at main.rs lines 59-67 -/

/-- `wgpu_types::Backends` member, for the `backends` field of the instance
descriptor (main.rs line 62 passes `Backends::all()`). -/
inductive Backend
  | vulkan
  | metal
  | dx12
  | gl
  | browserWebGpu
deriving DecidableEq, Repr

/-- `wgpu_types::Backends::all()`. -/
def Backends.all : List Backend :=
  [Backend.vulkan, Backend.metal, Backend.dx12, Backend.gl, Backend.browserWebGpu]

/-- `wgpu_types::InstanceFlags`; only its origin matters here. -/
inductive InstanceFlags
  | from_build_config
  | debug
  | validation
deriving DecidableEq, Repr

/-- `wgpu_types::Dx12Compiler` (main.rs line 64 picks `Fxc`). -/
inductive Dx12Compiler
  | fxc
  | dxc
deriving DecidableEq, Repr

/-- `wgpu_types::Gles3MinorVersion` (main.rs line 65 picks the default,
which is `Automatic`). -/
inductive Gles3MinorVersion
  | automatic
  | version0
  | version1
  | version2
deriving DecidableEq, Repr

/-- `wgpu_types::InstanceDescriptor` as filled in at main.rs lines 61-66. -/
structure InstanceDescriptor where
  backends : List Backend
  flags : InstanceFlags
  dx12_shader_compiler : Dx12Compiler
  gles_minor_version : Gles3MinorVersion
deriving DecidableEq, Repr

/-- `wgpu_core::global::Global`, the graphics backend instance. The
`allocId` field records the identity of the `Arc` allocation wrapping it
(main.rs line 59 wraps every constructed `Global` in `Arc::new`, which
always yields a fresh allocation). -/
structure Global where
  name : String
  desc : InstanceDescriptor
  allocId : Nat
deriving DecidableEq, Repr

/-- `wgpu_core::global::Global::new(name, descriptor)`: in wgpu, instance
construction is infallible (backend adapters are only enumerated later), and
the call at main.rs lines 59-67 has no error handling. `allocId` is the
identity of the fresh `Arc` allocation made at the call site. -/
def Global.new (name : String) (desc : InstanceDescriptor) (allocId : Nat) : Global :=
  { name := name, desc := desc, allocId := allocId }

/-! ## wasmtime-wasi externals as used at main.rs lines 57-58 -/

/-- `wasmtime_wasi::ResourceTable`: registry of opaque host-managed
resources handed to the guest; entries modelled as opaque numeric ids. -/
structure ResourceTable where
  entries : List Nat
deriving DecidableEq, Repr

/-- `ResourceTable::new()`: an empty table. -/
def ResourceTable.new : ResourceTable :=
  { entries := [] }

/-- `wasmtime_wasi::WasiCtx`; the only configuration the runtime example
applies is stdio inheritance (main.rs line 58). -/
structure WasiCtx where
  inheritStdio : Bool
deriving DecidableEq, Repr

/-- `wasmtime_wasi::WasiCtxBuilder`. -/
structure WasiCtxBuilder where
  inheritStdio : Bool
deriving DecidableEq, Repr

/-- `WasiCtxBuilder::new()`: stdio not inherited by default. -/
def WasiCtxBuilder.new : WasiCtxBuilder :=
  { inheritStdio := false }

/-- `WasiCtxBuilder::inherit_stdio()`: grants the stdin of the host process,
stdout and stderr to the guest. -/
def WasiCtxBuilder.inherit_stdio (b : WasiCtxBuilder) : WasiCtxBuilder :=
  { b with inheritStdio := true }

/-- `WasiCtxBuilder::build()`. -/
def WasiCtxBuilder.build (b : WasiCtxBuilder) : WasiCtx :=
  { inheritStdio := b.inheritStdio }

/-! ## The wasi-mini-canvas crate surface consumed by main.rs

These are code of this repository that is not under the examined sources;
their bodies are modelled from the spec, with types forced by the use sites
in main.rs. -/

/-- Modelled from the spec: `MiniCanvasDesc`, the canvas descriptor of the
wasi-mini-canvas crate (missing from the examined sources) — requested
width, height and optional title; an immutable value passed into creation. -/
structure MiniCanvasDesc where
  width : Nat
  height : Nat
  title : Option String
deriving DecidableEq, Repr

/-- Modelled from the spec: `MiniCanvas`, the canvas handle of the
wasi-mini-canvas crate (missing from the examined sources) — an opaque
identifier plus the underlying native window, here represented by the
descriptor it was created from. -/
structure MiniCanvas where
  id : Nat
  window : MiniCanvasDesc
deriving DecidableEq, Repr

/-- Modelled from the spec: the process-wide window registry of the
wasi-mini-canvas crate (missing from the examined sources), keyed by the
canvas identifier; `nextId` supplies the fresh opaque identifiers. -/
structure WindowRegistry where
  windows : List (Nat × MiniCanvasDesc)
  nextId : Nat
deriving DecidableEq, Repr

/-- Error kind named by the spec for canvas creation. -/
inductive CanvasError
  | windowCreationFailed
deriving DecidableEq, Repr

/-- Modelled from the spec: the Canvas Factory of the wasi-mini-canvas
crate (missing from the examined sources) — runs on the owning thread,
validates the descriptor (both dimensions must be strictly positive), then
constructs the native window, assigns a fresh opaque identifier, registers
it in the process-wide window registry and returns the handle; for an
invalid descriptor it fails with `WindowCreationFailed`, registering
nothing. The result pairs the outcome produced on the owning thread with
the registry it leaves behind. -/
def canvasFactoryCreate (reg : WindowRegistry) (desc : MiniCanvasDesc) :
    Except CanvasError MiniCanvas × WindowRegistry :=
  if 0 < desc.width ∧ 0 < desc.height then
    (Except.ok { id := reg.nextId, window := desc },
     { windows := reg.windows ++ [(reg.nextId, desc)], nextId := reg.nextId + 1 })
  else
    (Except.error CanvasError.windowCreationFailed, reg)

/-- `wasi_mini_canvas_wasmtime::WasiWinitEventLoopProxy` (missing from the
examined sources): the cloneable sending end of the work queue; modelled by
the identity of the channel it sends into. -/
structure WasiWinitEventLoopProxy where
  channelId : Nat
deriving DecidableEq, Repr

/-- `Clone::clone` on the proxy: a clone sends into the same channel. -/
def WasiWinitEventLoopProxy.clone (p : WasiWinitEventLoopProxy) : WasiWinitEventLoopProxy :=
  p

/-- Modelled from the spec: `WasiWinitEventLoopProxy::spawn` of the
wasi-mini-canvas crate (missing from the examined sources) — submits the
closure to the owning thread, which executes it and resolves the future to
its value. The call site main.rs line 94 (`self.0.spawn(f).await`, typed
`T`) forces the resolved type to be the value type of the closure itself, with
no error variant. -/
def WasiWinitEventLoopProxy.spawn {α : Type} (_p : WasiWinitEventLoopProxy)
    (f : Unit → α) : α :=
  f ()

/-- Modelled from the spec: `submit` for work that touches the state of
the owning thread (the window registry, mutated only by the owning thread) —
the owning thread dequeues the closure, runs it on its state and resolves
the future to the produced value. -/
def WasiWinitEventLoopProxy.submitOn {α : Type} (_p : WasiWinitEventLoopProxy)
    (reg : WindowRegistry) (work : WindowRegistry → α × WindowRegistry) :
    α × WindowRegistry :=
  work reg

/-- Modelled from the spec: `WasiWinitEventLoopProxy::create_window` of the
wasi-mini-canvas crate (missing from the examined sources) — a convenience
built on `submit`, wrapping a closure that calls the Canvas Factory with
the unchanged descriptor. The use site main.rs line 110 forces the value
type of the future to be `MiniCanvas` with no error variant, so a factory
failure on the owning thread cannot cross to the caller as a value: when
the factory fails, no canvas value is delivered at all, modelled `none`
(the convention of this embedding for a path that returns no value); what
the absent code does on that path beyond surfacing no value is not
observable through this type. -/
def WasiWinitEventLoopProxy.create_window (p : WasiWinitEventLoopProxy)
    (reg : WindowRegistry) (desc : MiniCanvasDesc) : Option MiniCanvas × WindowRegistry :=
  match p.submitOn reg (fun r => canvasFactoryCreate r desc) with
  | (Except.ok c, reg2) => (some c, reg2)
  | (Except.error _, reg2) => (none, reg2)

/-- Modelled from the spec: the main-thread event loop object returned by
`create_wasi_winit_event_loop` (missing from the examined sources), holding
the receiving end of the work queue. -/
structure WasiWinitEventLoop where
  channelId : Nat
deriving DecidableEq, Repr

/-- Modelled from the spec:
`wasi_mini_canvas_wasmtime::create_wasi_winit_event_loop()` (missing from
the examined sources) — creates the work queue once and returns the event
loop holding its receiving end paired with a proxy holding its sending end
(main.rs lines 165-166). -/
def create_wasi_winit_event_loop : WasiWinitEventLoop × WasiWinitEventLoopProxy :=
  ({ channelId := 0 }, { channelId := 0 })

/-! ## HostState (main.rs lines 47-81) -/

/-- `HostState` (main.rs lines 47-52): the per component-instantiation
state. `instance_field` embeds the `instance: Arc<wgpu_core::global::Global>`
field (the Rust field name is a Lean keyword). -/
structure HostState where
  table : ResourceTable
  ctx : WasiCtx
  instance_field : Global
  main_thread_proxy : WasiWinitEventLoopProxy
deriving DecidableEq, Repr

/-- `HostState::new` (main.rs lines 55-70): binds a fresh empty resource
table, a WASI context built with stdio inheritance, a newly constructed
graphics instance (a fresh `Arc` around a fresh `Global`, allocation
identity `allocId`) configured with all backends, build-config flags, the
Fxc DX12 compiler and the default GLES minor version, and the given proxy.
`allocId` models the freshness of the `Arc::new` allocation performed by
this call: distinct calls allocate distinct `Arc`s. -/
def HostState.new (main_thread_proxy : WasiWinitEventLoopProxy) (allocId : Nat) :
    HostState :=
  { table := ResourceTable.new
    ctx := (WasiCtxBuilder.new.inherit_stdio).build
    instance_field := Global.new "webgpu"
      { backends := Backends.all
        flags := InstanceFlags.from_build_config
        dx12_shader_compiler := Dx12Compiler.fxc
        gles_minor_version := Gles3MinorVersion.automatic }
      allocId
    main_thread_proxy := main_thread_proxy }

/-- `WasiView::table` for `HostState` (main.rs lines 74-76): returns access
to the bound resource table. -/
def HostState.tableAcc (hs : HostState) : ResourceTable :=
  hs.table

/-- `WasiView::ctx` for `HostState` (main.rs lines 78-80): returns access
to the bound WASI context. -/
def HostState.ctxAcc (hs : HostState) : WasiCtx :=
  hs.ctx

/-- `WasiWebGpuView::instance` for `HostState` (main.rs lines 99-101):
`Arc::clone(&self.instance)` — a clone of the same allocation, hence the
same underlying `Global`. -/
def HostState.instanceAcc (hs : HostState) : Global :=
  hs.instance_field

/-! ## UiThreadSpawner (main.rs lines 86-96, 103-105) -/

/-- `UiThreadSpawner` (main.rs line 86): a newtype around the event-loop
proxy. -/
structure UiThreadSpawner where
  proxy : WasiWinitEventLoopProxy
deriving DecidableEq, Repr

/-- `MainThreadSpawner::spawn` for `UiThreadSpawner` (main.rs lines 89-95):
`self.0.spawn(f).await` — delegates to `spawn` of the wrapped proxy with the
closure unchanged and returns its resolved value. -/
def UiThreadSpawner.spawn {α : Type} (s : UiThreadSpawner) (f : Unit → α) : α :=
  s.proxy.spawn f

/-- `WasiWebGpuView::ui_thread_spawner` for `HostState` (main.rs lines
103-105): `UiThreadSpawner(self.main_thread_proxy.clone())`. -/
def HostState.ui_thread_spawner (hs : HostState) : UiThreadSpawner :=
  { proxy := hs.main_thread_proxy.clone }

/-! ## create_canvas (main.rs lines 108-112) -/

/-- `WasiMiniCanvasView::create_canvas` for `HostState` (main.rs lines
109-111): `block_on(self.main_thread_proxy.create_window(desc))` — passes
the descriptor unchanged to `create_window` of the proxy and blocks the
calling thread until the resolved canvas is available. The registry of the
owning thread is threaded explicitly. -/
def HostState.create_canvas (hs : HostState) (reg : WindowRegistry)
    (desc : MiniCanvasDesc) : Option MiniCanvas × WindowRegistry :=
  hs.main_thread_proxy.create_window reg desc

/-! ## Spec-side result types, for comparison with the types of the code -/

/-- Error kind named by the spec for submissions after event-loop
shutdown. -/
inductive SubmitError
  | channelClosed
deriving DecidableEq, Repr

/-- Error kind named by the spec for startup. -/
inductive StartupError
  | instanceInitFailed
deriving DecidableEq, Repr

/-- The `spawn` of the code embedded into the result type the spec claims for
it: the src signature (main.rs line 89, `async fn spawn<F, T>(&self, f: F)
-> T`) returns the value type of the closure itself, so the embedding is always
a success value. -/
def spawnOutcome {α : Type} (s : UiThreadSpawner) (f : Unit → α) :
    Except SubmitError α :=
  Except.ok (s.spawn f)

/-- Written from the spec words, for comparison only: `spawn` on a
shut-down event loop resolves to a `ChannelClosed` failure, otherwise to
the value of the closure. -/
def spawnSpec {α : Type} (eventLoopShutDown : Bool) (f : Unit → α) :
    Except SubmitError α :=
  if eventLoopShutDown then Except.error SubmitError.channelClosed
  else Except.ok (f ())

/-- The value that `create_canvas` delivers to its caller, embedded into
the result type the spec claims for it: the src signature (main.rs line
109) returns `MiniCanvas` with no error variant, so whatever reaches the
caller is a canvas value, never a `CanvasError` value; a path that delivers
no value stays `none`. -/
def createCanvasOutcome (hs : HostState) (reg : WindowRegistry)
    (desc : MiniCanvasDesc) : Option (Except CanvasError MiniCanvas) :=
  (hs.create_canvas reg desc).1.map Except.ok

/-! ## Startup sequence of main (main.rs lines 165-167) -/

/-- The platform environment at startup: which graphics backends the
platform could actually create. The runtime example never inspects this —
`Global::new` is called unconditionally with `Backends::all()` and cannot
fail — but it is needed to state the spec startup condition. -/
structure GpuEnv where
  compatibleBackends : List Backend
deriving DecidableEq, Repr

/-- The host-state construction step of `main` (main.rs lines 165-167),
embedded into the result type the spec claims for startup: create the
event loop and proxy, then construct the `HostState`. The code has no
failure path — `HostState::new` returns `Self`, not a `Result` — so the
outcome is a success value whatever backends the platform offers; the
environment argument is ignored exactly as the code ignores it. -/
def startupHostState (_env : GpuEnv) (allocId : Nat) : Except StartupError HostState :=
  Except.ok (HostState.new create_wasi_winit_event_loop.2 allocId)

/-! ## Wasm-path resolution in main (main.rs lines 171-174) -/

/-- `RuntimeArgs` (main.rs lines 22-31): the parsed command-line options,
both optional. -/
structure RuntimeArgs where
  example_ : Option String
  wasm : Option String
deriving DecidableEq, Repr

/-- The `wasm_path` match of `main` (main.rs lines 171-174): with
`--example ex` the path is the formatted example path, regardless of
`--wasm`; otherwise `args.wasm.unwrap()`, whose panic on an absent `--wasm`
is modelled by `none`. -/
def wasmPath (args : RuntimeArgs) : Option String :=
  match args.example_ with
  | some ex => some ("./target/example-" ++ ex ++ ".wasm")
  | none => args.wasm

/-! ## Wait modes of the cross-thread entry points

How each entry point of main.rs waits for a cross-thread result, read off
the source text. -/

/-- How an entry point waits: cooperative suspension of the calling task
(`.await` inside an `async fn`), blocking the calling thread on a future
(`futures::executor::block_on`), or running the blocking event loop. -/
inductive WaitMode
  | cooperativeAwait
  | blockOnThread
  | blockingRun
deriving DecidableEq, Repr

/-- Whether a wait mode blocks the carrier thread of the caller. -/
def WaitMode.blocksCarrierThread : WaitMode → Bool
  | WaitMode.cooperativeAwait => false
  | WaitMode.blockOnThread => true
  | WaitMode.blockingRun => true

/-- `UiThreadSpawner::spawn` (main.rs line 94) is an `async fn` awaiting
the proxy future: cooperative suspension. -/
def spawnWaitMode : WaitMode :=
  WaitMode.cooperativeAwait

/-- `create_canvas` (main.rs line 110) is a synchronous method calling
`futures::executor::block_on` on the proxy future: it blocks the calling
thread. -/
def createCanvasWaitMode : WaitMode :=
  WaitMode.blockOnThread

/-- `main_thread_loop.run()` (main.rs line 187) blocks its thread for the
lifetime of the application. -/
def runWaitMode : WaitMode :=
  WaitMode.blockingRun

/-! ## Theorems about the claims -/

/-- C1: `spawn` on the spawner returned by `HostState.ui_thread_spawner`
delegates to `spawn` of the bound main-thread proxy with the same closure
and resolves to exactly the value the closure returns; the result is a pure
function of the closure, hence deterministic on every run. -/
theorem ui_thread_spawner_spawn_delegates {α : Type} (hs : HostState) (f : Unit → α) :
    hs.ui_thread_spawner = { proxy := hs.main_thread_proxy } ∧
    hs.ui_thread_spawner.spawn f = hs.main_thread_proxy.spawn f ∧
    hs.ui_thread_spawner.spawn f = f () :=
  ⟨rfl, rfl, rfl⟩

/-- C2 counterexample: at the concrete input demanded by the claim (event
loop shut down, closure returning 5), the spec-side result is the
`ChannelClosed` failure, but the result of the code, embedded into the
claimed result type, is the success value 5 — the result type of `spawn`
in main.rs admits no error outcome at all. -/
theorem spawn_channel_closed_counterexample :
    spawnOutcome { proxy := { channelId := 0 } } (fun _ => (5 : Nat)) = Except.ok 5 ∧
    spawnSpec true (fun _ => (5 : Nat)) = Except.error SubmitError.channelClosed ∧
    spawnOutcome { proxy := { channelId := 0 } } (fun _ => (5 : Nat)) ≠
      spawnSpec true (fun _ => (5 : Nat)) :=
  ⟨rfl, rfl, fun h => Except.noConfusion h⟩

/-- C2 amended: the result type of `spawn` is the value type of the closure
itself, with no error variant; `spawn` resolves to exactly the value of the
closure and can never surface a `ChannelClosed` failure value to the
caller. -/
theorem spawn_admits_no_error {α : Type} (s : UiThreadSpawner) (f : Unit → α) :
    spawnOutcome s f = Except.ok (f ()) ∧
    ∀ e : SubmitError, spawnOutcome s f ≠ Except.error e :=
  ⟨rfl, fun _ h => Except.noConfusion h⟩

/-- C3 counterexample: at the concrete zero-dimension descriptor, the
factory failure exists on the owning thread, but what `create_canvas`
delivers to the caller is no value at all (`none`), not a
`WindowCreationFailed` error value — the result type of `create_canvas` in
main.rs (line 109, plain `MiniCanvas`) admits no failure outcome, so the
claimed error value is never returned. -/
theorem create_canvas_zero_counterexample :
    createCanvasOutcome (HostState.new { channelId := 0 } 0)
        { windows := [], nextId := 0 } { width := 0, height := 0, title := none } =
      none ∧
    createCanvasOutcome (HostState.new { channelId := 0 } 0)
        { windows := [], nextId := 0 } { width := 0, height := 0, title := none } ≠
      some (Except.error CanvasError.windowCreationFailed) ∧
    canvasFactoryCreate { windows := [], nextId := 0 }
        { width := 0, height := 0, title := none } =
      (Except.error CanvasError.windowCreationFailed, { windows := [], nextId := 0 }) :=
  ⟨rfl, fun h => Option.noConfusion h, rfl⟩

/-- C3 amended: for every descriptor with width = 0 or height = 0, the
factory rejects the descriptor, so `create_canvas` delivers no canvas value
and no handle is registered in the window registry — but it does not (and
cannot) return a `WindowCreationFailed` error value to the caller: the
result type in main.rs line 109 admits no failure outcome, so no
`CanvasError` value ever reaches the caller. -/
theorem create_canvas_zero_rejected (hs : HostState) (reg : WindowRegistry)
    (desc : MiniCanvasDesc) (h : desc.width = 0 ∨ desc.height = 0) :
    (hs.create_canvas reg desc).1 = none ∧
    (hs.create_canvas reg desc).2 = reg ∧
    ∀ e : CanvasError, createCanvasOutcome hs reg desc ≠ some (Except.error e) := by
  have hcond : ¬ (0 < desc.width ∧ 0 < desc.height) := by
    rcases h with h | h <;> simp [h]
  refine ⟨?_, ?_, ?_⟩ <;>
    simp [createCanvasOutcome, HostState.create_canvas,
      WasiWinitEventLoopProxy.create_window, WasiWinitEventLoopProxy.submitOn,
      canvasFactoryCreate, hcond]

/-- C3 witness: the amended theorem applied at a concrete zero-width
descriptor. -/
theorem create_canvas_zero_rejected_witness :
    (({ width := 0, height := 7, title := none } : MiniCanvasDesc).width = 0 ∨
      ({ width := 0, height := 7, title := none } : MiniCanvasDesc).height = 0) ∧
    (((HostState.new { channelId := 0 } 1).create_canvas { windows := [], nextId := 4 }
        { width := 0, height := 7, title := none }).1 = none ∧
      ((HostState.new { channelId := 0 } 1).create_canvas { windows := [], nextId := 4 }
        { width := 0, height := 7, title := none }).2 = { windows := [], nextId := 4 } ∧
      ∀ e : CanvasError, createCanvasOutcome (HostState.new { channelId := 0 } 1)
        { windows := [], nextId := 4 } { width := 0, height := 7, title := none } ≠
        some (Except.error e)) :=
  ⟨Or.inl rfl,
    create_canvas_zero_rejected (HostState.new { channelId := 0 } 1)
      { windows := [], nextId := 4 } { width := 0, height := 7, title := none }
      (Or.inl rfl)⟩

/-- C4 counterexample: two `HostState` constructions in the same process
(distinct `Arc::new` allocations, identities 0 and 1) hold distinct
backend instances — the instance is not a process-wide shared one. -/
theorem shared_instance_counterexample :
    (HostState.new { channelId := 0 } 0).instance_field ≠
      (HostState.new { channelId := 0 } 1).instance_field := by
  decide

/-- C4 amended: on any one `HostState`, every call to the `instance`
accessor returns the same underlying backend instance (an `Arc` clone of
the one bound field); but each `HostState::new` constructs its own fresh
backend instance — the instance carries exactly the allocation identity of
that construction — so the instance is per-`HostState`, not
per-process. -/
theorem instance_accessor_per_hoststate (hs : HostState)
    (p : WasiWinitEventLoopProxy) (allocId : Nat) :
    hs.instanceAcc = hs.instance_field ∧
    (HostState.new p allocId).instance_field.allocId = allocId :=
  ⟨rfl, rfl⟩

/-- C5 counterexample: in an environment with zero compatible backends, the
startup step still constructs a `HostState` and does not produce
`InstanceInitFailed`. -/
theorem startup_no_backend_counterexample :
    startupHostState { compatibleBackends := [] } 0 =
      Except.ok (HostState.new { channelId := 0 } 0) ∧
    startupHostState { compatibleBackends := [] } 0 ≠
      Except.error StartupError.instanceInitFailed :=
  ⟨rfl, fun h => Except.noConfusion h⟩

/-- C5 amended: startup is infallible — there is no backend-compatibility
check and no `InstanceInitFailed` error; the graphics instance is created
unconditionally inside `HostState::new` (not before it), and a `HostState`
is constructed whatever backends the platform offers. -/
theorem startup_infallible (env : GpuEnv) (allocId : Nat) :
    startupHostState env allocId =
      Except.ok (HostState.new create_wasi_winit_event_loop.2 allocId) ∧
    (startupHostState env allocId).isOk = true :=
  ⟨rfl, rfl⟩

/-- C6: `create_canvas` is built on `submit` — it delegates to the bound
main-thread proxy, which submits a unit of work that invokes the canvas
factory with the unchanged descriptor; the canvas value delivered to the
caller is exactly the handle that this submitted work produces (its success
value), and the registry is left exactly as the submitted work leaves
it. -/
theorem create_canvas_built_on_submit (hs : HostState) (reg : WindowRegistry)
    (desc : MiniCanvasDesc) :
    hs.create_canvas reg desc = hs.main_thread_proxy.create_window reg desc ∧
    (hs.create_canvas reg desc).1 =
      (hs.main_thread_proxy.submitOn reg (fun r => canvasFactoryCreate r desc)).1.toOption ∧
    (hs.create_canvas reg desc).2 =
      (hs.main_thread_proxy.submitOn reg (fun r => canvasFactoryCreate r desc)).2 := by
  refine ⟨rfl, ?_, ?_⟩ <;>
    rcases hfc : canvasFactoryCreate reg desc with ⟨v, r2⟩ <;>
    cases v <;>
    simp [HostState.create_canvas, WasiWinitEventLoopProxy.create_window,
      WasiWinitEventLoopProxy.submitOn, hfc, Except.toOption]

/-- C7 counterexample: the graphics-instance field is not a handle to one
shared process-wide instance — two constructions (allocation identities 2
and 3) expose distinct instances through the accessor. -/
theorem hoststate_shared_instance_counterexample :
    (HostState.new { channelId := 0 } 2).instanceAcc ≠
      (HostState.new { channelId := 0 } 3).instanceAcc := by
  decide

/-- C7 amended: `HostState::new(p)` binds exactly four components — a fresh
empty resource table, a newly built WASI context, a handle to a backend
instance newly created by that construction (not a process-shared one), and
the proxy `p` — and the accessors return exactly these bound components,
the spawner accessor wrapping a clone of the bound proxy. -/
theorem hoststate_new_binds_components (p : WasiWinitEventLoopProxy) (allocId : Nat) :
    (HostState.new p allocId).table = ResourceTable.new ∧
    (HostState.new p allocId).table.entries = [] ∧
    (HostState.new p allocId).ctx = (WasiCtxBuilder.new.inherit_stdio).build ∧
    (HostState.new p allocId).instance_field =
      Global.new "webgpu"
        { backends := Backends.all
          flags := InstanceFlags.from_build_config
          dx12_shader_compiler := Dx12Compiler.fxc
          gles_minor_version := Gles3MinorVersion.automatic } allocId ∧
    (HostState.new p allocId).main_thread_proxy = p ∧
    (HostState.new p allocId).tableAcc = (HostState.new p allocId).table ∧
    (HostState.new p allocId).ctxAcc = (HostState.new p allocId).ctx ∧
    (HostState.new p allocId).instanceAcc = (HostState.new p allocId).instance_field ∧
    (HostState.new p allocId).ui_thread_spawner = { proxy := p } :=
  ⟨rfl, rfl, rfl, rfl, rfl, rfl, rfl, rfl, rfl⟩

/-- C8 counterexample: `create_canvas` waits with
`futures::executor::block_on` (main.rs line 110), which blocks the carrier
thread of the caller — so `run()` is not the only blocking primitive. -/
theorem create_canvas_blocks_counterexample :
    createCanvasWaitMode.blocksCarrierThread = true :=
  rfl

/-- C8 amended: the `spawn` path suspends only the calling task
cooperatively (`.await` in an `async fn`), but `create_canvas` blocks its
carrier thread through `block_on`; the blocking primitives are therefore
`create_canvas` and the `run()` of the event loop, not `run()` alone. -/
theorem wait_modes_of_entry_points :
    spawnWaitMode.blocksCarrierThread = false ∧
    createCanvasWaitMode.blocksCarrierThread = true ∧
    runWaitMode.blocksCarrierThread = true :=
  ⟨rfl, rfl, rfl⟩

/-- C9: with neither `--example` nor `--wasm`, the wasm-path resolution of
`main` panics (the unwrap of the absent path, modelled by `none`); with
`--example ex` the component path is exactly the formatted example path,
regardless of `--wasm`. -/
theorem wasm_path_resolution (ex : String) (w : Option String) :
    wasmPath { example_ := none, wasm := none } = none ∧
    wasmPath { example_ := some ex, wasm := w } =
      some ("./target/example-" ++ ex ++ ".wasm") :=
  ⟨rfl, rfl⟩

/-- C10: every `HostState` built by `HostState::new` carries a WASI context
built with stdio inheritance enabled, so every guest instantiation is
granted the stdio of the host. -/
theorem hoststate_ctx_inherits_stdio (p : WasiWinitEventLoopProxy) (allocId : Nat) :
    (HostState.new p allocId).ctx.inheritStdio = true :=
  rfl

end WasiGfxRuntime
